import Mathlib

/-!
Shallow embedding of the document-collaboration backend (doc-backend),
centred on `src/routes/documents.js`: the access resolver
(`checkDocumentAccess`), the mention engine (`extractMentions` and the
mention-resolution query), the mention fan-out loop of document creation,
the change-set computation of document update, document history
reconstruction, and the share / unshare routes.

Modelling conventions:
* MongoDB ObjectIds and user ids are `Nat` (the JavaScript code only ever
  compares their `toString()` representations for equality).
* Timestamps are `Nat`.
* A JavaScript value that may be `null`/`undefined` is an `Option`.
* A lookup (`Document.findById`, `User.findOne`) is passed in as the
  `Option` it resolved to.
* A thrown exception is a `none` result of an `Option`-returning
  function, or an `Except.error` where the failure is per-item.
-/

/-- User identifier (ObjectId, compared via toString). -/
abbrev UserId := Nat

/-- The permission levels of a sharedWith grant ("view" / "edit"). -/
inductive Perm
  | view
  | edit
  deriving DecidableEq, Repr

/-- Document visibility ("public" / "private"; Lean reserves both words,
so the constructors are abbreviated). -/
inductive Visibility
  | pub
  | priv
  deriving DecidableEq, Repr

/-- One entry of a document sharedWith array: `{ user, permission }`. -/
structure Share where
  user : UserId
  permission : Perm
  deriving DecidableEq, Repr

/-- The action field of a history entry ("create" / "update"). -/
inductive HAction
  | create
  | update
  deriving DecidableEq, Repr

/-- The changes object recorded in a history entry: each of the four
updatable fields is present or absent.  The content change is stored as a
summary string, never the full content. -/
structure Changes where
  title : Option String
  content : Option String
  visibility : Option Visibility
  tags : Option (List String)
  deriving DecidableEq, Repr

/-- One entry of a document editHistory array:
`{ user, action, changes, timestamp }`. -/
structure HistoryEntry where
  user : UserId
  action : HAction
  changes : Changes
  timestamp : Nat
  deriving DecidableEq, Repr

/-- The Document record (fields used by src/routes/documents.js). -/
structure Document where
  id : Nat
  title : String
  content : String
  author : UserId
  visibility : Visibility
  tags : List String
  sharedWith : List Share
  editHistory : List HistoryEntry
  isDeleted : Bool
  lastModified : Nat
  createdAt : Nat
  deriving DecidableEq, Repr

/-- A User record of the identity directory. -/
structure User where
  _id : UserId
  name : String
  email : String
  deriving DecidableEq, Repr

/-- The value returned by checkDocumentAccess:
`{ hasAccess, document, permission }` (the permission key is absent on
some return paths, hence the `Option`). -/
structure AccessResult where
  hasAccess : Bool
  document : Option Document
  permission : Option Perm
  deriving DecidableEq, Repr

/-- Embedding of `checkDocumentAccess` (src/routes/documents.js lines
28-60).  The first argument is the result of `Document.findById` (`none`
models a missing document).  `userId` is `none` when the caller passes a
JavaScript `null`; in that case line 36 evaluates `userId.toString()` and
throws a TypeError, which is modelled by the `none` result of this
function.  The missing-or-deleted check at line 31 runs before that, so a
`null` user id with a missing or deleted document does not throw. -/
def checkDocumentAccess (doc? : Option Document) (userId : Option UserId)
    (requiredPermission : Perm) : Option AccessResult :=
  match doc? with
  | none => some ⟨false, none, none⟩
  | some document =>
    if document.isDeleted then some ⟨false, none, none⟩
    else
      match userId with
      | none => none
      | some uid =>
        if document.author == uid then
          some ⟨true, some document, some Perm.edit⟩
        else if document.visibility == Visibility.pub && requiredPermission == Perm.view then
          some ⟨true, some document, some Perm.view⟩
        else
          match document.sharedWith.find? (fun share => share.user == uid) with
          | some sharedAccess =>
            some ⟨requiredPermission == Perm.view ||
                    (requiredPermission == Perm.edit && sharedAccess.permission == Perm.edit),
                  some document, some sharedAccess.permission⟩
          | none => some ⟨false, some document, none⟩

/-- Outcome of GET /api/documents/:id, abstracting the HTTP statuses:
404 / 200 / 401 / 403 / 500. -/
inductive GetDocResult
  | notFound
  | ok (document : Document)
  | authRequired
  | accessDenied
  | serverError
  deriving DecidableEq, Repr

/-- Embedding of GET /api/documents/:id (src/routes/documents.js lines
105-151).  A missing or soft-deleted document is 404; a public document
is returned to everyone before any access check; a private document with
an anonymous caller is 401 before `checkDocumentAccess` is ever invoked;
otherwise the resolver decides, and were it to throw, the catch block
would answer 500. -/
def getDocumentRoute (doc? : Option Document) (userId : Option UserId) : GetDocResult :=
  match doc? with
  | none => GetDocResult.notFound
  | some document =>
    if document.isDeleted then GetDocResult.notFound
    else if document.visibility == Visibility.pub then GetDocResult.ok document
    else
      match userId with
      | none => GetDocResult.authRequired
      | some uid =>
        match checkDocumentAccess doc? (some uid) Perm.view with
        | some r => if r.hasAccess then GetDocResult.ok document else GetDocResult.accessDenied
        | none => GetDocResult.serverError

/-- Collapses an access-resolver outcome to a grant Bool; a thrown
exception (`none`) is not a grant. -/
def accessGranted (r : Option AccessResult) : Bool :=
  match r with
  | some res => res.hasAccess
  | none => false

/-- The JavaScript \w character class used by the mention regex
/@(\w+)/g: ASCII letters, digits and underscore. -/
def isWordChar (c : Char) : Bool :=
  (decide ('a' ≤ c) && decide (c ≤ 'z')) || (decide ('A' ≤ c) && decide (c ≤ 'Z'))
    || (decide ('0' ≤ c) && decide (c ≤ '9')) || (c == '_')

/-- Embedding of the /@(\w+)/g scan of extractMentions
(src/routes/documents.js lines 16-22).  A match is an `@` followed by a
maximal nonempty run of word characters; the capture is that run.  The
regex scan is non-overlapping left to right, but since `@` is not a word
character no match can start inside the run of a previous match, so the
matches are exactly the `@` positions whose next character is a word
character — which is what this structural scan collects. -/
def scanMentions : List Char → List String
  | [] => []
  | c :: rest =>
    if c == '@' && !(rest.takeWhile isWordChar).isEmpty then
      String.mk (rest.takeWhile isWordChar) :: scanMentions rest
    else
      scanMentions rest

/-- De-duplication keeping the first occurrence in order — the behaviour
of `[...new Set(mentions)]` at line 24. -/
def dedupFirstAux : List String → List String → List String
  | [], _ => []
  | x :: xs, seen =>
    if seen.contains x then dedupFirstAux xs seen
    else x :: dedupFirstAux xs (x :: seen)

/-- De-duplicate preserving first-seen order. -/
def dedupFirst (l : List String) : List String :=
  dedupFirstAux l []

/-- Embedding of extractMentions (src/routes/documents.js lines 15-25). -/
def extractMentions (content : String) : List String :=
  dedupFirst (scanMentions content.data)

/-- ASCII lower-casing of a string to its character list (the effect of
the case-insensitive regex flag "i" on the ASCII names involved). -/
def lowerStr (s : String) : List Char :=
  s.data.map Char.toLower

/-- Contiguous-sublist test: does `pat` occur somewhere inside `l`? -/
def containsSub (pat : List Char) : List Char → Bool
  | [] => pat.isEmpty
  | c :: rest => pat.isPrefixOf (c :: rest) || containsSub pat rest

/-- The test `new RegExp(m, "i").test(name)` for a mention token `m`
(src/routes/documents.js line 191).  A token consists of word characters
only, so it contains no space (`m.split(" ")[0]` is `m` itself) and no
regex metacharacter; the unanchored pattern therefore matches iff the
token occurs in the name as a case-insensitive substring — anywhere, not
only at the start of the first word. -/
def regexTestCI (pattern name : String) : Bool :=
  containsSub (lowerStr pattern) (lowerStr name)

/-- Embedding of the mention-resolution query
(src/routes/documents.js lines 189-193): `User.find` with an `$or` of
one name-regex test per token returns, in directory order, each user
whose name matches at least one token, once. -/
def mentionedUsers (directory : List User) (mentions : List String) : List User :=
  directory.filter (fun u => mentions.any (fun m => regexTestCI m u.name))

/-- The matching rule as the specification words it — a case-insensitive
match of the token against the beginning of the first word of the display
name.  Written from the spec (section 4.2) for comparison with
`mentionedUsers`; deliberately not a translation of the source. -/
def specFirstWordMatch (token : String) (u : User) : Bool :=
  (lowerStr token).isPrefixOf
    (lowerStr (String.mk (u.name.data.takeWhile (fun c => !(c == ' ')))))

/-- Notification types used by documents.js ("mention" / "share"). -/
inductive NType
  | mention
  | share
  deriving DecidableEq, Repr

/-- The fields passed to Notification.create. -/
structure NotifDraft where
  recipient : UserId
  sender : UserId
  type : NType
  document : Nat
  message : String
  deriving DecidableEq, Repr

/-- `Notification.create`, with an oracle giving the failure message (if
any) the store raises for a given recipient; `Except.error` models the
create call throwing. -/
def createNotification (oracle : UserId → Option String) (draft : NotifDraft) :
    Except String NotifDraft :=
  match oracle draft.recipient with
  | some e => Except.error e
  | none => Except.ok draft

/-- Embedding of the mention fan-out loop of POST /api/documents
(src/routes/documents.js lines 196-218, with the save at line 220): for
each resolved user other than the actor, a view grant is pushed onto
sharedWith unconditionally — the existing contents of sharedWith are
never consulted — and then Notification.create is attempted inside
try/catch; a failure is logged (captured here in the third component)
and the loop continues.  Returns the updated document, the created
notifications, and the captured errors. -/
def mentionLoop (actor : UserId) (actorName title : String)
    (oracle : UserId → Option String) :
    List User → Document → Document × List NotifDraft × List String
  | [], doc => (doc, [], [])
  | u :: rest, doc =>
    if u._id == actor then
      mentionLoop actor actorName title oracle rest doc
    else
      let doc' := { doc with sharedWith := doc.sharedWith ++ [⟨u._id, Perm.view⟩] }
      match createNotification oracle
          ⟨u._id, actor, NType.mention, doc.id,
            actorName ++ " mentioned you in \"" ++ title ++ "\""⟩ with
      | Except.ok n =>
        let r := mentionLoop actor actorName title oracle rest doc'
        (r.1, n :: r.2.1, r.2.2)
      | Except.error e =>
        let r := mentionLoop actor actorName title oracle rest doc'
        (r.1, r.2.1, e :: r.2.2)

/-- The view grants the mention loop appends: one per resolved non-actor
user, in order. -/
def mentionGrants (actor : UserId) (users : List User) : List Share :=
  (users.filter (fun u => !(u._id == actor))).map (fun u => ⟨u._id, Perm.view⟩)

/-- Embedding of the grant application of POST /api/documents/:id/share
(src/routes/documents.js lines 434-444): if some entry for the user
exists, the permission of the first such entry is overwritten in place;
otherwise a new entry is pushed onto the end of sharedWith. -/
def shareApplyGrant : List Share → UserId → Perm → List Share
  | [], uid, p => [⟨uid, p⟩]
  | s :: rest, uid, p =>
    if s.user == uid then ⟨s.user, p⟩ :: rest
    else s :: shareApplyGrant rest uid p

/-- The value produced by the share route: the saved document and the
one notification it always creates. -/
structure ShareOutcome where
  document : Document
  notification : NotifDraft
  deriving DecidableEq, Repr

/-- Embedding of POST /api/documents/:id/share after the edit-access
check and the user lookup succeed (src/routes/documents.js lines
421-455): the grant is applied to sharedWith — with no check that the
target is the author — and one share notification is created
unconditionally, whether or not an identical grant already existed. -/
def shareRoute (doc : Document) (actor : UserId) (actorName : String)
    (target : User) (permission : Perm) : ShareOutcome :=
  { document := { doc with sharedWith := shareApplyGrant doc.sharedWith target._id permission },
    notification :=
      ⟨target._id, actor, NType.share, doc.id,
        actorName ++ " shared \"" ++ doc.title ++ "\" with you"⟩ }

/-- Embedding of DELETE /api/documents/:id/share/:userId after the
edit-access check (src/routes/documents.js lines 475-499): every
sharedWith entry whose user matches the path parameter is filtered out;
no other field is touched. -/
def unshareDocument (doc : Document) (targetUserId : UserId) : Document :=
  { doc with sharedWith := doc.sharedWith.filter (fun share => !(share.user == targetUserId)) }

/-- JSON escaping of a character inside a string literal, as
JSON.stringify performs it for the plain tag strings involved. -/
def jsonEscapeChar (c : Char) : List Char :=
  if c == '"' then ['\\', '"']
  else if c == '\\' then ['\\', '\\']
  else [c]

/-- JSON.stringify of an array of strings, used by the tags comparison
at src/routes/documents.js line 281. -/
def jsonStringifyStringList (l : List String) : String :=
  "[" ++ String.intercalate ","
    (l.map (fun s => "\"" ++ String.mk ((s.data.map jsonEscapeChar).flatten) ++ "\"")) ++ "]"

/-- The body of PUT /api/documents/:id: each updatable field is either
proposed (some) or absent from the request (undefined). -/
structure UpdateRequest where
  title : Option String
  content : Option String
  visibility : Option Visibility
  tags : Option (List String)
  deriving DecidableEq, Repr

/-- `Object.keys(changes).length > 0` is false exactly when no field was
recorded. -/
def Changes.isEmpty (c : Changes) : Bool :=
  c.title.isNone && c.content.isNone && c.visibility.isNone && c.tags.isNone

/-- The change-set computation of PUT /api/documents/:id
(src/routes/documents.js lines 265-284): a field enters changes only
when it is proposed and differs from the current value; tags are
compared through JSON.stringify; a content change is recorded as the
fixed summary string "Content updated". -/
def computeChanges (doc : Document) (req : UpdateRequest) : Changes :=
  { title := match req.title with
      | some t => if t == doc.title then none else some t
      | none => none,
    content := match req.content with
      | some c => if c == doc.content then none else some "Content updated"
      | none => none,
    visibility := match req.visibility with
      | some v => if v == doc.visibility then none else some v
      | none => none,
    tags := match req.tags with
      | some ts =>
        if jsonStringifyStringList ts == jsonStringifyStringList doc.tags then none
        else some ts
      | none => none }

/-- The updateData object of the same route: identical shape to the
change-set, except that the real new content is written rather than the
summary marker. -/
def computeUpdateData (doc : Document) (req : UpdateRequest) : UpdateRequest :=
  { title := match req.title with
      | some t => if t == doc.title then none else some t
      | none => none,
    content := match req.content with
      | some c => if c == doc.content then none else some c
      | none => none,
    visibility := match req.visibility with
      | some v => if v == doc.visibility then none else some v
      | none => none,
    tags := match req.tags with
      | some ts =>
        if jsonStringifyStringList ts == jsonStringifyStringList doc.tags then none
        else some ts
      | none => none }

/-- Modelled from the spec: the Document model (src/models/Document.js)
is not in the repository snapshot, so the effect of
Document.findByIdAndUpdate on the stored record — in particular the
handling of lastModified — is taken from spec section 4.3: with an empty
change-set no HistoryEntry is appended and lastModified is untouched
(the route then issues an empty update); otherwise the updateData fields
are written, the update HistoryEntry pushed by the route is appended,
and lastModified is set to now.  The change-set and updateData
themselves are the route's own code (lines 265-296). -/
def applyUpdate (doc : Document) (actor : UserId) (req : UpdateRequest) (now : Nat) :
    Document :=
  let changes := computeChanges doc req
  let updateData := computeUpdateData doc req
  if changes.isEmpty then doc
  else
    { doc with
      title := updateData.title.getD doc.title,
      content := updateData.content.getD doc.content,
      visibility := updateData.visibility.getD doc.visibility,
      tags := updateData.tags.getD doc.tags,
      editHistory := doc.editHistory ++ [⟨actor, HAction.update, changes, now⟩],
      lastModified := now }

/-- Modelled from the spec: Document.create of POST /api/documents
(src/routes/documents.js lines 176-182) with the schema defaults of the
missing Document model taken from the spec data model — empty sharedWith
and editHistory, isDeleted false, createdAt and lastModified set at
creation time. -/
def createDocument (id : Nat) (title content : String) (author : UserId)
    (visibility : Visibility) (tags : List String) (now : Nat) : Document :=
  ⟨id, title, content, author, visibility, tags, [], [], false, now, now⟩

/-- The creation record GET /api/documents/:id/history synthesizes at
read time (src/routes/documents.js lines 340-351): action create,
timestamp createdAt, and the changes built from the document fields as
they are at read time. -/
def syntheticCreateEntry (doc : Document) : HistoryEntry :=
  ⟨doc.author, HAction.create,
    ⟨some doc.title, some "Document created", some doc.visibility, some doc.tags⟩,
    doc.createdAt⟩

/-- Embedding of the history reconstruction of
GET /api/documents/:id/history (src/routes/documents.js lines 340-356):
the synthetic create entry is prepended to the stored editHistory and
the combined list is sorted newest first — a stable sort under the
comparator (a, b) => new Date(b.timestamp) - new Date(a.timestamp). -/
def fullHistory (doc : Document) : List HistoryEntry :=
  (syntheticCreateEntry doc :: doc.editHistory).mergeSort
    (fun a b => Nat.ble b.timestamp a.timestamp)

/-- C1 counterexample.  The claim quantifies over every document, but for
a soft-deleted document the missing-or-deleted check at line 31 fires
before the author check at line 36, so even the author (id 0 here) is
answered `hasAccess: false, document: null` instead of an edit grant. -/
theorem C1_counterexample :
    checkDocumentAccess
        (some ⟨1, "t", "c", 0, Visibility.priv, [], [], [], true, 0, 0⟩)
        (some 0) Perm.edit
      = some ⟨false, none, none⟩ := by
  rfl

/-- C1 (amended to non-deleted documents): for every non-deleted
document and both required permissions, the author is granted with
effective permission edit, regardless of visibility and of the contents
of sharedWith. -/
theorem C1_author_always_edit (doc : Document) (h : doc.isDeleted = false)
    (requiredPermission : Perm) :
    checkDocumentAccess (some doc) (some doc.author) requiredPermission
      = some ⟨true, some doc, some Perm.edit⟩ := by
  simp [checkDocumentAccess, h]

/-- C1 witness: a concrete non-deleted public document whose author (id 5)
requests edit and is granted edit. -/
theorem C1_author_always_edit_witness :
    checkDocumentAccess
        (some ⟨2, "t", "c", 5, Visibility.pub, [], [⟨7, Perm.view⟩], [], false, 0, 0⟩)
        (some 5) Perm.edit
      = some ⟨true,
          some ⟨2, "t", "c", 5, Visibility.pub, [], [⟨7, Perm.view⟩], [], false, 0, 0⟩,
          some Perm.edit⟩ :=
  C1_author_always_edit ⟨2, "t", "c", 5, Visibility.pub, [], [⟨7, Perm.view⟩], [], false, 0, 0⟩
    rfl Perm.edit

/-- C2 counterexample.  For a public, non-deleted document and the
anonymous requester (JavaScript `null`), the resolver itself does not
grant view: line 36 evaluates `userId.toString()` on `null` and throws,
modelled by the `none` result.  (Anonymous view of public documents is
granted by the GET route before the resolver is invoked.) -/
theorem C2_counterexample :
    checkDocumentAccess
        (some ⟨3, "t", "c", 0, Visibility.pub, [], [], [], false, 0, 0⟩)
        none Perm.view
      = none := by
  rfl

/-- C2 (amended to authenticated requesters at the resolver): for every
non-deleted public document, every non-null requester is granted view
(the author with effective permission edit, everyone else view); the
anonymous requester is served by the GET route before the resolver runs;
and edit resolves only for the author or a holder of an explicit edit
grant in sharedWith. -/
theorem C2_public_view_for_all (doc : Document) (uid : UserId)
    (hdel : doc.isDeleted = false) (hpub : doc.visibility = Visibility.pub) :
    checkDocumentAccess (some doc) (some uid) Perm.view
      = some ⟨true, some doc, some (if doc.author == uid then Perm.edit else Perm.view)⟩
    ∧ getDocumentRoute (some doc) none = GetDocResult.ok doc
    ∧ (accessGranted (checkDocumentAccess (some doc) (some uid) Perm.edit) = true →
        uid = doc.author
          ∨ doc.sharedWith.any (fun s => s.user == uid && s.permission == Perm.edit) = true) := by
  refine ⟨?_, ?_, ?_⟩
  · by_cases hau : doc.author = uid
    · simp [checkDocumentAccess, hdel, hau]
    · simp [checkDocumentAccess, hdel, hpub, hau]
  · simp [getDocumentRoute, hdel, hpub]
  · intro hgr
    by_cases hau : doc.author = uid
    · exact Or.inl hau.symm
    · refine Or.inr ?_
      simp only [checkDocumentAccess, hdel, if_false, Bool.false_eq_true, hau,
        beq_iff_eq, if_neg, reduceIte] at hgr
      rcases hf : doc.sharedWith.find? (fun share => share.user == uid) with _ | s
      · simp [hf, accessGranted] at hgr
      · have hmem := List.mem_of_find?_eq_some hf
        have huser : (s.user == uid) = true :=
          @List.find?_some _ (fun share => share.user == uid) s doc.sharedWith hf
        simp [hf, accessGranted] at hgr
        exact List.any_eq_true.mpr ⟨s, hmem, by simp [huser, hgr]⟩

/-- C2 witness: a concrete public document authored by user 1 with an
edit grant for user 7; instantiates the amended theorem at requester 7. -/
theorem C2_public_view_for_all_witness :
    checkDocumentAccess
        (some ⟨4, "t", "c", 1, Visibility.pub, [], [⟨7, Perm.edit⟩], [], false, 0, 0⟩)
        (some 7) Perm.view
      = some ⟨true,
          some ⟨4, "t", "c", 1, Visibility.pub, [], [⟨7, Perm.edit⟩], [], false, 0, 0⟩,
          some Perm.view⟩
    ∧ getDocumentRoute
        (some ⟨4, "t", "c", 1, Visibility.pub, [], [⟨7, Perm.edit⟩], [], false, 0, 0⟩) none
      = GetDocResult.ok ⟨4, "t", "c", 1, Visibility.pub, [], [⟨7, Perm.edit⟩], [], false, 0, 0⟩
    ∧ (accessGranted (checkDocumentAccess
          (some ⟨4, "t", "c", 1, Visibility.pub, [], [⟨7, Perm.edit⟩], [], false, 0, 0⟩)
          (some 7) Perm.edit) = true →
        (7 : UserId) = (⟨4, "t", "c", 1, Visibility.pub, [], [⟨7, Perm.edit⟩], [], false, 0, 0⟩ : Document).author
          ∨ ([⟨7, Perm.edit⟩] : List Share).any (fun s => s.user == 7 && s.permission == Perm.edit) = true) :=
  C2_public_view_for_all
    ⟨4, "t", "c", 1, Visibility.pub, [], [⟨7, Perm.edit⟩], [], false, 0, 0⟩ 7 rfl rfl

/-- C3 counterexample.  For a private, non-deleted document and the
anonymous requester, the resolver does not return a denial result: it
throws (line 36, `userId.toString()` on `null`), modelled by `none`, for
both view and edit — its evaluation is not total for a null requester. -/
theorem C3_counterexample :
    checkDocumentAccess
        (some ⟨5, "t", "c", 0, Visibility.priv, [], [], [], false, 0, 0⟩) none Perm.view = none
    ∧ checkDocumentAccess
        (some ⟨5, "t", "c", 0, Visibility.priv, [], [], [], false, 0, 0⟩) none Perm.edit = none :=
  ⟨rfl, rfl⟩

/-- C3 (amended to authenticated requesters at the resolver): for every
non-deleted private document, a non-null requester who is not the author
and is absent from sharedWith is denied for both view and edit; the
anonymous requester is answered authentication-required by the GET route
before the resolver is invoked (the resolver itself throws on a null
requester id). -/
theorem C3_private_denied (doc : Document) (uid : UserId) (requiredPermission : Perm)
    (hdel : doc.isDeleted = false) (hpriv : doc.visibility = Visibility.priv)
    (hauthor : ¬ doc.author = uid)
    (hshared : doc.sharedWith.all (fun s => !(s.user == uid)) = true) :
    checkDocumentAccess (some doc) (some uid) requiredPermission = some ⟨false, some doc, none⟩
    ∧ getDocumentRoute (some doc) none = GetDocResult.authRequired := by
  have hfind : doc.sharedWith.find? (fun share => share.user == uid) = none := by
    refine List.find?_eq_none.mpr ?_
    intro s hs
    have := List.all_eq_true.mp hshared s hs
    simp at this
    simp [this]
  constructor
  · simp [checkDocumentAccess, hdel, hpriv, hauthor, hfind]
  · simp [getDocumentRoute, hdel, hpriv]

/-- C3 witness: a concrete private document authored by user 0 with a
grant for user 3 only; requester 9 is denied view, and the route answers
authentication-required to the anonymous requester. -/
theorem C3_private_denied_witness :
    checkDocumentAccess
        (some ⟨6, "t", "c", 0, Visibility.priv, [], [⟨3, Perm.edit⟩], [], false, 0, 0⟩)
        (some 9) Perm.view
      = some ⟨false,
          some ⟨6, "t", "c", 0, Visibility.priv, [], [⟨3, Perm.edit⟩], [], false, 0, 0⟩, none⟩
    ∧ getDocumentRoute
        (some ⟨6, "t", "c", 0, Visibility.priv, [], [⟨3, Perm.edit⟩], [], false, 0, 0⟩) none
      = GetDocResult.authRequired :=
  C3_private_denied ⟨6, "t", "c", 0, Visibility.priv, [], [⟨3, Perm.edit⟩], [], false, 0, 0⟩
    9 Perm.view rfl rfl (by decide) (by decide)

/-- C4 counterexample.  The token "Smith" resolves the identity
"John Smith" under the source query (unanchored case-insensitive regex:
substring match), although "Smith" is not a prefix of the first word
"John" of the display name — the claimed first-word-prefix rule does not
describe the code. -/
theorem C4_counterexample :
    mentionedUsers [⟨1, "John Smith", "js@x"⟩] ["Smith"] = [⟨1, "John Smith", "js@x"⟩]
    ∧ specFirstWordMatch "Smith" ⟨1, "John Smith", "js@x"⟩ = false := by
  constructor
  · rfl
  · rfl

/-- C4 (amended): the identities resolved for the mention tokens are
exactly those whose display name contains some token as a
case-insensitive substring (the unanchored regex of the source), with
every match of an ambiguous token processed; the concrete scenario of
the claim holds as stated: the extracted tokens are ["John", "john2"],
"John" resolves to both John Smith and John Doe, "john2" to none. -/
theorem C4_mention_resolution (directory : List User) (mentions : List String) (u : User) :
    (u ∈ mentionedUsers directory mentions ↔
      u ∈ directory ∧ ∃ m ∈ mentions, regexTestCI m u.name = true)
    ∧ extractMentions "Thanks @John for the review, cc @john2" = ["John", "john2"]
    ∧ mentionedUsers [⟨1, "John Smith", "a@x"⟩, ⟨2, "John Doe", "b@x"⟩] ["John", "john2"]
        = [⟨1, "John Smith", "a@x"⟩, ⟨2, "John Doe", "b@x"⟩]
    ∧ mentionedUsers [⟨1, "John Smith", "a@x"⟩, ⟨2, "John Doe", "b@x"⟩] ["john2"] = [] := by
  refine ⟨?_, rfl, rfl, rfl⟩
  simp [mentionedUsers, List.mem_filter, List.any_eq_true]

/-- C4 witness: the characterization instantiated at a one-user
directory and the token "Smith". -/
theorem C4_mention_resolution_witness :
    ((⟨1, "John Smith", "js@x"⟩ : User) ∈ mentionedUsers [⟨1, "John Smith", "js@x"⟩] ["Smith"] ↔
      (⟨1, "John Smith", "js@x"⟩ : User) ∈ [(⟨1, "John Smith", "js@x"⟩ : User)]
        ∧ ∃ m ∈ ["Smith"], regexTestCI m "John Smith" = true)
    ∧ extractMentions "Thanks @John for the review, cc @john2" = ["John", "john2"]
    ∧ mentionedUsers [⟨1, "John Smith", "a@x"⟩, ⟨2, "John Doe", "b@x"⟩] ["John", "john2"]
        = [⟨1, "John Smith", "a@x"⟩, ⟨2, "John Doe", "b@x"⟩]
    ∧ mentionedUsers [⟨1, "John Smith", "a@x"⟩, ⟨2, "John Doe", "b@x"⟩] ["john2"] = [] :=
  C4_mention_resolution [⟨1, "John Smith", "js@x"⟩] ["Smith"] ⟨1, "John Smith", "js@x"⟩

/-- The document produced by the mention loop: every resolved non-actor
user is appended to sharedWith as a view grant — independently of the
notification oracle and of the prior contents of sharedWith — and no
other field changes. -/
theorem mentionLoop_fst (actor : UserId) (an t : String)
    (oracle : UserId → Option String) (users : List User) :
    ∀ doc : Document,
      (mentionLoop actor an t oracle users doc).1
        = { doc with sharedWith := doc.sharedWith ++ mentionGrants actor users } := by
  induction users with
  | nil => intro doc; simp [mentionLoop, mentionGrants]
  | cons u rest ih =>
    intro doc
    by_cases hu : (u._id == actor) = true
    · simp [mentionLoop, mentionGrants, hu, ih]
    · simp only [Bool.not_eq_true] at hu
      cases horacle : oracle u._id with
      | none => simp [mentionLoop, mentionGrants, hu, createNotification, horacle, ih]
      | some e => simp [mentionLoop, mentionGrants, hu, createNotification, horacle, ih]

/-- The errors captured by the mention loop are exactly the oracle
failures of the resolved non-actor users, in order. -/
theorem mentionLoop_errors (actor : UserId) (an t : String)
    (oracle : UserId → Option String) (users : List User) :
    ∀ doc : Document,
      (mentionLoop actor an t oracle users doc).2.2
        = (users.filter (fun u => !(u._id == actor))).filterMap (fun u => oracle u._id) := by
  induction users with
  | nil => intro doc; simp [mentionLoop]
  | cons u rest ih =>
    intro doc
    by_cases hu : (u._id == actor) = true
    · simp [mentionLoop, hu, ih]
    · simp only [Bool.not_eq_true] at hu
      cases horacle : oracle u._id with
      | none => simp [mentionLoop, hu, createNotification, horacle, ih]
      | some e => simp [mentionLoop, hu, createNotification, horacle, ih]

/-- The notifications created by the mention loop: one per resolved
non-actor user whose create call does not fail, in order. -/
theorem mentionLoop_notifs (actor : UserId) (an t : String)
    (oracle : UserId → Option String) (users : List User) :
    ∀ doc : Document,
      (mentionLoop actor an t oracle users doc).2.1
        = (users.filter (fun u => !(u._id == actor))).filterMap
            (fun u => match oracle u._id with
              | none => some ⟨u._id, actor, NType.mention, doc.id,
                  an ++ " mentioned you in \"" ++ t ++ "\""⟩
              | some _ => none) := by
  induction users with
  | nil => intro doc; simp [mentionLoop]
  | cons u rest ih =>
    intro doc
    by_cases hu : (u._id == actor) = true
    · simp [mentionLoop, hu, ih]
    · simp only [Bool.not_eq_true] at hu
      cases horacle : oracle u._id with
      | none => simp [mentionLoop, hu, createNotification, horacle, ih]
      | some e => simp [mentionLoop, hu, createNotification, horacle, ih]

/-- Re-applying a grant identical to the first existing entry for that
user leaves sharedWith unchanged. -/
theorem shareApplyGrant_existing (l : List Share) (uid : UserId) (p : Perm)
    (h : l.find? (fun s => s.user == uid) = some ⟨uid, p⟩) :
    shareApplyGrant l uid p = l := by
  induction l with
  | nil => simp at h
  | cons s rest ih =>
    by_cases hs : (s.user == uid) = true
    · have hseq : s = ⟨uid, p⟩ := by
        simpa [List.find?, hs] using h
      simp [shareApplyGrant, hs, hseq]
    · simp only [Bool.not_eq_true] at hs
      have h' : List.find? (fun x => x.user == uid) rest = some ⟨uid, p⟩ := by
        simpa [List.find?, hs] using h
      simp [shareApplyGrant, hs, ih h']

/-- After applying a grant for a user, some entry for that user is
present in sharedWith. -/
theorem shareApplyGrant_mem (l : List Share) (uid : UserId) (p : Perm) :
    (shareApplyGrant l uid p).any (fun s => s.user == uid) = true := by
  induction l with
  | nil => simp [shareApplyGrant]
  | cons s rest ih =>
    by_cases hs : (s.user == uid) = true
    · simp [shareApplyGrant, hs]
    · simp only [Bool.not_eq_true] at hs
      simp [shareApplyGrant, hs, ih]

/-- C5 counterexample.  Against a state where the resolved user 7 is
already in sharedWith with a view grant, re-running the mention loop
appends a second identical grant and creates one more notification (the
loop never consults sharedWith); and the share route emits a share
notification even though the applied grant is identical to the existing
one. -/
theorem C5_counterexample :
    (mentionLoop 1 "Alice" "T" (fun _ => none) [⟨7, "Bob", "b@x"⟩]
        ⟨9, "T", "c", 1, Visibility.priv, [], [⟨7, Perm.view⟩], [], false, 0, 0⟩).1.sharedWith
      = [⟨7, Perm.view⟩, ⟨7, Perm.view⟩]
    ∧ (mentionLoop 1 "Alice" "T" (fun _ => none) [⟨7, "Bob", "b@x"⟩]
        ⟨9, "T", "c", 1, Visibility.priv, [], [⟨7, Perm.view⟩], [], false, 0, 0⟩).2.1.length = 1
    ∧ (shareRoute ⟨9, "T", "c", 1, Visibility.priv, [], [⟨7, Perm.view⟩], [], false, 0, 0⟩
        1 "Alice" ⟨7, "Bob", "b@x"⟩ Perm.view).notification
      = ⟨7, 1, NType.share, 9, "Alice shared \"T\" with you"⟩ :=
  ⟨rfl, rfl, rfl⟩

/-- C5 (amended): the mention loop is not idempotent — it unconditionally
appends one view grant (and attempts one notification) per resolved
non-actor user, never consulting sharedWith, so a second run against a
state where those users are already shared adds duplicates; the explicit
share route does add no duplicate sharedWith entry when re-applying a
grant identical to the existing one (it overwrites the first matching
entry in place), but it creates a share notification on every call, so
the repeated identical share emits a second, identical notification. -/
theorem C5_share_idempotence (doc : Document) (actor : UserId) (an t : String)
    (oracle : UserId → Option String) (users : List User) (target : User) (p : Perm)
    (h : doc.sharedWith.find? (fun s => s.user == target._id) = some ⟨target._id, p⟩) :
    (mentionLoop actor an t oracle users doc).1.sharedWith
      = doc.sharedWith ++ mentionGrants actor users
    ∧ (shareRoute doc actor an target p).document.sharedWith = doc.sharedWith
    ∧ (shareRoute (shareRoute doc actor an target p).document actor an target p).notification
        = (shareRoute doc actor an target p).notification := by
  refine ⟨?_, ?_, rfl⟩
  · rw [mentionLoop_fst]
  · simp [shareRoute, shareApplyGrant_existing _ _ _ h]

/-- C5 witness: the amended statement at the concrete state of the
counterexample (user 7 already shared with view). -/
theorem C5_share_idempotence_witness :
    (mentionLoop 1 "Alice" "T" (fun _ => none) [⟨7, "Bob", "b@x"⟩]
        ⟨9, "T", "c", 1, Visibility.priv, [], [⟨7, Perm.view⟩], [], false, 0, 0⟩).1.sharedWith
      = [⟨7, Perm.view⟩] ++ mentionGrants 1 [⟨7, "Bob", "b@x"⟩]
    ∧ (shareRoute ⟨9, "T", "c", 1, Visibility.priv, [], [⟨7, Perm.view⟩], [], false, 0, 0⟩
        1 "Alice" ⟨7, "Bob", "b@x"⟩ Perm.view).document.sharedWith = [⟨7, Perm.view⟩]
    ∧ (shareRoute (shareRoute
          ⟨9, "T", "c", 1, Visibility.priv, [], [⟨7, Perm.view⟩], [], false, 0, 0⟩
          1 "Alice" ⟨7, "Bob", "b@x"⟩ Perm.view).document
          1 "Alice" ⟨7, "Bob", "b@x"⟩ Perm.view).notification
        = (shareRoute ⟨9, "T", "c", 1, Visibility.priv, [], [⟨7, Perm.view⟩], [], false, 0, 0⟩
            1 "Alice" ⟨7, "Bob", "b@x"⟩ Perm.view).notification :=
  C5_share_idempotence ⟨9, "T", "c", 1, Visibility.priv, [], [⟨7, Perm.view⟩], [], false, 0, 0⟩
    1 "Alice" "T" (fun _ => none) [⟨7, "Bob", "b@x"⟩] ⟨7, "Bob", "b@x"⟩ Perm.view rfl

/-- C6 counterexample.  The share route has no author check: the author
(user 5) of a document passes the edit-access check, shares the document
with their own email, and ends up in their own sharedWith list. -/
theorem C6_counterexample :
    accessGranted (checkDocumentAccess
        (some ⟨10, "T", "c", 5, Visibility.priv, [], [], [], false, 0, 0⟩)
        (some 5) Perm.edit) = true
    ∧ (shareRoute ⟨10, "T", "c", 5, Visibility.priv, [], [], [], false, 0, 0⟩ 5 "Alice"
        ⟨5, "Alice", "a@x"⟩ Perm.view).document.sharedWith = [⟨5, Perm.view⟩]
    ∧ (⟨10, "T", "c", 5, Visibility.priv, [], [], [], false, 0, 0⟩ : Document).author = 5 :=
  ⟨rfl, rfl, rfl⟩

/-- C6 (amended): mention auto-share never adds the acting user (so the
create flow, where the actor is the author, keeps the author out of
sharedWith), and unshare only removes entries; but the share route
applies the grant with no author check, so a share targeting the author
leaves the author present in its own sharedWith list. -/
theorem C6_author_grant_invariant (doc : Document) (an t : String)
    (oracle : UserId → Option String) (users : List User) (uid : UserId) (p : Perm)
    (h : doc.sharedWith.all (fun s => !(s.user == doc.author)) = true) :
    (mentionLoop doc.author an t oracle users doc).1.sharedWith.all
        (fun s => !(s.user == doc.author)) = true
    ∧ (unshareDocument doc uid).sharedWith.all (fun s => !(s.user == doc.author)) = true
    ∧ (shareApplyGrant doc.sharedWith doc.author p).any (fun s => s.user == doc.author) = true := by
  refine ⟨?_, ?_, shareApplyGrant_mem _ _ _⟩
  · rw [mentionLoop_fst]
    have hshape : ({ doc with sharedWith := doc.sharedWith ++ mentionGrants doc.author users } :
        Document).sharedWith = doc.sharedWith ++ mentionGrants doc.author users := rfl
    rw [hshape, List.all_append, h, Bool.true_and]
    simp only [mentionGrants, List.all_eq_true]
    intro s hs
    rcases List.mem_map.mp hs with ⟨u, hu, rfl⟩
    simpa using (List.mem_filter.mp hu).2
  · simp only [unshareDocument, List.all_eq_true]
    intro s hs
    exact List.all_eq_true.mp h s (List.mem_filter.mp hs).1

/-- C6 witness: a concrete document authored by 5 with a grant for 3
only; the mention loop over a directory containing the author and the
unshare of user 3 both keep the author absent, while applying an
explicit grant for the author makes the author present. -/
theorem C6_author_grant_invariant_witness :
    (mentionLoop (⟨11, "T", "c", 5, Visibility.priv, [], [⟨3, Perm.view⟩], [], false, 0, 0⟩ :
        Document).author "A" "T" (fun _ => none) [⟨5, "Alice", "a@x"⟩, ⟨3, "Bob", "b@x"⟩]
        ⟨11, "T", "c", 5, Visibility.priv, [], [⟨3, Perm.view⟩], [], false, 0, 0⟩).1.sharedWith.all
        (fun s => !(s.user == (⟨11, "T", "c", 5, Visibility.priv, [], [⟨3, Perm.view⟩], [],
          false, 0, 0⟩ : Document).author)) = true
    ∧ (unshareDocument ⟨11, "T", "c", 5, Visibility.priv, [], [⟨3, Perm.view⟩], [], false, 0, 0⟩
        3).sharedWith.all (fun s => !(s.user == (⟨11, "T", "c", 5, Visibility.priv, [],
          [⟨3, Perm.view⟩], [], false, 0, 0⟩ : Document).author)) = true
    ∧ (shareApplyGrant (⟨11, "T", "c", 5, Visibility.priv, [], [⟨3, Perm.view⟩], [], false, 0,
          0⟩ : Document).sharedWith (⟨11, "T", "c", 5, Visibility.priv, [], [⟨3, Perm.view⟩],
          [], false, 0, 0⟩ : Document).author Perm.edit).any
        (fun s => s.user == (⟨11, "T", "c", 5, Visibility.priv, [], [⟨3, Perm.view⟩], [],
          false, 0, 0⟩ : Document).author) = true :=
  C6_author_grant_invariant
    ⟨11, "T", "c", 5, Visibility.priv, [], [⟨3, Perm.view⟩], [], false, 0, 0⟩
    "A" "T" (fun _ => none) [⟨5, "Alice", "a@x"⟩, ⟨3, "Bob", "b@x"⟩] 3 Perm.edit rfl

/-- C8: a notification-creation failure for one resolved user does not
prevent that user's view grant, does not stop processing the remaining
resolved users, and does not fail the parent operation.  The document
produced by the mention loop is independent of the failure oracle and
always carries every non-actor grant; the created notifications are
exactly those whose create call succeeded; the failures are captured, in
order, in the returned error list instead of being propagated. -/
theorem C8_notification_failure_isolated (actor : UserId) (an t : String)
    (oracle : UserId → Option String) (users : List User) (doc : Document) :
    (mentionLoop actor an t oracle users doc).1
      = (mentionLoop actor an t (fun _ => none) users doc).1
    ∧ (mentionLoop actor an t oracle users doc).1.sharedWith
        = doc.sharedWith ++ mentionGrants actor users
    ∧ (mentionLoop actor an t oracle users doc).2.1
        = (users.filter (fun u => !(u._id == actor))).filterMap
            (fun u => match oracle u._id with
              | none => some ⟨u._id, actor, NType.mention, doc.id,
                  an ++ " mentioned you in \"" ++ t ++ "\""⟩
              | some _ => none)
    ∧ (mentionLoop actor an t oracle users doc).2.2
        = (users.filter (fun u => !(u._id == actor))).filterMap (fun u => oracle u._id) := by
  refine ⟨?_, ?_, mentionLoop_notifs actor an t oracle users doc,
    mentionLoop_errors actor an t oracle users doc⟩
  · rw [mentionLoop_fst, mentionLoop_fst]
  · rw [mentionLoop_fst]

/-- C10: unshare removes exactly the entries of the given user, changes
no other document field (the record with sharedWith restored equals the
original), and is the identity when the user is absent from sharedWith. -/
theorem C10_unshare_removes_only_target (doc : Document) (uid : UserId) (s : Share) :
    (s ∈ (unshareDocument doc uid).sharedWith ↔ s ∈ doc.sharedWith ∧ ¬ s.user = uid)
    ∧ (unshareDocument doc uid).sharedWith.all (fun x => !(x.user == uid)) = true
    ∧ { unshareDocument doc uid with sharedWith := doc.sharedWith } = doc
    ∧ (doc.sharedWith.all (fun x => !(x.user == uid)) = true →
        unshareDocument doc uid = doc) := by
  refine ⟨?_, ?_, rfl, ?_⟩
  · simp [unshareDocument, List.mem_filter]
  · simp only [unshareDocument, List.all_eq_true]
    intro x hx
    exact (List.mem_filter.mp hx).2
  · intro hall
    have hf : doc.sharedWith.filter (fun share => !(share.user == uid)) = doc.sharedWith :=
      List.filter_eq_self.mpr (List.all_eq_true.mp hall)
    unfold unshareDocument
    rw [hf]

/-- C10 witness: user 9 is absent from the concrete sharedWith, so the
unshare is the identity; the membership characterization holds for the
remaining grant of user 3. -/
theorem C10_unshare_removes_only_target_witness :
    (⟨12, "t", "c", 0, Visibility.priv, [], [⟨3, Perm.view⟩], [], false, 0, 0⟩ :
        Document).sharedWith.all (fun x => !(x.user == 9)) = true
    ∧ unshareDocument ⟨12, "t", "c", 0, Visibility.priv, [], [⟨3, Perm.view⟩], [], false, 0, 0⟩ 9
        = ⟨12, "t", "c", 0, Visibility.priv, [], [⟨3, Perm.view⟩], [], false, 0, 0⟩
    ∧ ((⟨3, Perm.view⟩ : Share) ∈ (unshareDocument
          ⟨12, "t", "c", 0, Visibility.priv, [], [⟨3, Perm.view⟩], [], false, 0, 0⟩
          9).sharedWith ↔
        (⟨3, Perm.view⟩ : Share) ∈ (⟨12, "t", "c", 0, Visibility.priv, [], [⟨3, Perm.view⟩],
            [], false, 0, 0⟩ : Document).sharedWith ∧ ¬ (⟨3, Perm.view⟩ : Share).user = 9) :=
  ⟨rfl,
    (C10_unshare_removes_only_target
      ⟨12, "t", "c", 0, Visibility.priv, [], [⟨3, Perm.view⟩], [], false, 0, 0⟩ 9
      ⟨3, Perm.view⟩).2.2.2 rfl,
    (C10_unshare_removes_only_target
      ⟨12, "t", "c", 0, Visibility.priv, [], [⟨3, Perm.view⟩], [], false, 0, 0⟩ 9
      ⟨3, Perm.view⟩).1⟩

/-- C7: an update proposing only the current values (structural equality
for the tag sequence) computes an empty change-set, appends no
HistoryEntry, and leaves every field — lastModified included —
untouched; in particular proposing only the current title is such a
no-op. -/
theorem C7_noop_update (doc : Document) (actor : UserId) (now : Nat) (req : UpdateRequest)
    (h1 : req.title = none ∨ req.title = some doc.title)
    (h2 : req.content = none ∨ req.content = some doc.content)
    (h3 : req.visibility = none ∨ req.visibility = some doc.visibility)
    (h4 : req.tags = none ∨ req.tags = some doc.tags) :
    computeChanges doc req = ⟨none, none, none, none⟩
    ∧ (computeChanges doc req).isEmpty = true
    ∧ applyUpdate doc actor req now = doc
    ∧ computeChanges doc ⟨some doc.title, none, none, none⟩ = ⟨none, none, none, none⟩
    ∧ applyUpdate doc actor ⟨some doc.title, none, none, none⟩ now = doc := by
  have hch : computeChanges doc req = ⟨none, none, none, none⟩ := by
    unfold computeChanges
    rcases h1 with h1 | h1 <;> rcases h2 with h2 | h2 <;> rcases h3 with h3 | h3 <;>
      rcases h4 with h4 | h4 <;> simp [h1, h2, h3, h4]
  have htitle : computeChanges doc ⟨some doc.title, none, none, none⟩
      = ⟨none, none, none, none⟩ := by
    simp [computeChanges]
  refine ⟨hch, by simp [hch, Changes.isEmpty], ?_, htitle, ?_⟩
  · unfold applyUpdate
    rw [hch]
    rfl
  · unfold applyUpdate
    rw [htitle]
    rfl

/-- C7 witness: a concrete document and a request proposing the current
title and the structurally equal current tag list. -/
theorem C7_noop_update_witness :
    computeChanges ⟨13, "t", "c", 0, Visibility.priv, ["a", "b"], [], [], false, 4, 2⟩
        ⟨some "t", none, none, some ["a", "b"]⟩ = ⟨none, none, none, none⟩
    ∧ (computeChanges ⟨13, "t", "c", 0, Visibility.priv, ["a", "b"], [], [], false, 4, 2⟩
        ⟨some "t", none, none, some ["a", "b"]⟩).isEmpty = true
    ∧ applyUpdate ⟨13, "t", "c", 0, Visibility.priv, ["a", "b"], [], [], false, 4, 2⟩ 9
        ⟨some "t", none, none, some ["a", "b"]⟩ 100
      = ⟨13, "t", "c", 0, Visibility.priv, ["a", "b"], [], [], false, 4, 2⟩
    ∧ computeChanges ⟨13, "t", "c", 0, Visibility.priv, ["a", "b"], [], [], false, 4, 2⟩
        ⟨some "t", none, none, none⟩ = ⟨none, none, none, none⟩
    ∧ applyUpdate ⟨13, "t", "c", 0, Visibility.priv, ["a", "b"], [], [], false, 4, 2⟩ 9
        ⟨some "t", none, none, none⟩ 100
      = ⟨13, "t", "c", 0, Visibility.priv, ["a", "b"], [], [], false, 4, 2⟩ :=
  C7_noop_update ⟨13, "t", "c", 0, Visibility.priv, ["a", "b"], [], [], false, 4, 2⟩ 9 100
    ⟨some "t", none, none, some ["a", "b"]⟩
    (Or.inr rfl) (Or.inl rfl) (Or.inl rfl) (Or.inr rfl)

/-- C9 counterexample.  The synthetic create entry is built from the
document's CURRENT field values at read time, not its initial ones:
after a document created with title "A" is renamed to "B", the
synthesized create record reports title "B". -/
theorem C9_counterexample :
    (syntheticCreateEntry (applyUpdate (createDocument 1 "A" "c" 0 Visibility.priv [] 0) 0
        ⟨some "B", none, none, none⟩ 5)).changes.title = some "B"
    ∧ (createDocument 1 "A" "c" 0 Visibility.priv [] 0).title = "A" :=
  ⟨rfl, rfl⟩

/-- C9 (amended): for every document whose stored entries are update
records, getHistory returns a permutation of the stored editHistory plus
exactly one create entry — the synthetic one, built from createdAt and
the document's CURRENT field values — and the combined sequence is
sorted by timestamp descending (newest first). -/
theorem C9_full_history (doc : Document)
    (h : ∀ e ∈ doc.editHistory, e.action = HAction.update) :
    (fullHistory doc).Perm (syntheticCreateEntry doc :: doc.editHistory)
    ∧ (fullHistory doc).Pairwise (fun a b => b.timestamp ≤ a.timestamp)
    ∧ (fullHistory doc).countP (fun e => e.action == HAction.create) = 1
    ∧ (syntheticCreateEntry doc).action = HAction.create
    ∧ (syntheticCreateEntry doc).timestamp = doc.createdAt
    ∧ (syntheticCreateEntry doc).changes
        = ⟨some doc.title, some "Document created", some doc.visibility, some doc.tags⟩ := by
  have hperm := List.mergeSort_perm (syntheticCreateEntry doc :: doc.editHistory)
    (fun a b => Nat.ble b.timestamp a.timestamp)
  refine ⟨hperm, ?_, ?_, rfl, rfl, rfl⟩
  · have hs := @List.sorted_mergeSort HistoryEntry
      (fun a b : HistoryEntry => Nat.ble b.timestamp a.timestamp)
      (fun a b c hab hbc => by
        simp only [Nat.ble_eq] at hab hbc ⊢
        exact Nat.le_trans hbc hab)
      (fun a b => by
        simp only [Nat.ble_eq, Bool.or_eq_true]
        exact (Nat.le_total b.timestamp a.timestamp))
      (syntheticCreateEntry doc :: doc.editHistory)
    exact hs.imp (fun hab => by simpa [Nat.ble_eq] using hab)
  · have hcount := hperm.countP_eq (fun e => e.action == HAction.create)
    rw [fullHistory, hcount, List.countP_cons]
    have hz : doc.editHistory.countP (fun e => e.action == HAction.create) = 0 :=
      List.countP_eq_zero.mpr (fun e he => by simp [h e he])
    simp [hz, syntheticCreateEntry]

/-- C9 witness: a concrete document with one stored update entry (at
timestamp 5, after creation at timestamp 1). -/
theorem C9_full_history_witness :
    (fullHistory ⟨14, "t", "c", 0, Visibility.priv, [],
        [], [⟨2, HAction.update, ⟨some "x", none, none, none⟩, 5⟩], false, 5, 1⟩).Perm
      (syntheticCreateEntry ⟨14, "t", "c", 0, Visibility.priv, [],
          [], [⟨2, HAction.update, ⟨some "x", none, none, none⟩, 5⟩], false, 5, 1⟩
        :: [⟨2, HAction.update, ⟨some "x", none, none, none⟩, 5⟩])
    ∧ (fullHistory ⟨14, "t", "c", 0, Visibility.priv, [],
        [], [⟨2, HAction.update, ⟨some "x", none, none, none⟩, 5⟩], false, 5, 1⟩).Pairwise
        (fun a b => b.timestamp ≤ a.timestamp)
    ∧ (fullHistory ⟨14, "t", "c", 0, Visibility.priv, [],
        [], [⟨2, HAction.update, ⟨some "x", none, none, none⟩, 5⟩], false, 5, 1⟩).countP
        (fun e => e.action == HAction.create) = 1
    ∧ (syntheticCreateEntry ⟨14, "t", "c", 0, Visibility.priv, [],
        [], [⟨2, HAction.update, ⟨some "x", none, none, none⟩, 5⟩], false, 5, 1⟩).action
        = HAction.create
    ∧ (syntheticCreateEntry ⟨14, "t", "c", 0, Visibility.priv, [],
        [], [⟨2, HAction.update, ⟨some "x", none, none, none⟩, 5⟩], false, 5, 1⟩).timestamp
        = (⟨14, "t", "c", 0, Visibility.priv, [],
            [], [⟨2, HAction.update, ⟨some "x", none, none, none⟩, 5⟩], false, 5, 1⟩ :
            Document).createdAt
    ∧ (syntheticCreateEntry ⟨14, "t", "c", 0, Visibility.priv, [],
        [], [⟨2, HAction.update, ⟨some "x", none, none, none⟩, 5⟩], false, 5, 1⟩).changes
        = ⟨some "t", some "Document created", some Visibility.priv, some []⟩ :=
  C9_full_history ⟨14, "t", "c", 0, Visibility.priv, [],
    [], [⟨2, HAction.update, ⟨some "x", none, none, none⟩, 5⟩], false, 5, 1⟩
    (by decide)
